import Mathlib

/-!
Verification of the Popup widget (src/popup.copy.js) against its
natural-language specification.

The JavaScript source is shallowly embedded as follows:

* DOM elements are identified by `Nat` ids; `none` stands for JavaScript
  `null`/`undefined` element references.
* A popup instance (`PopupState`) carries exactly the per-instance fields the
  constructor and the prototype methods touch, plus the pieces of the ambient
  DOM the methods read and write (the target's `onscroll` slot, its
  `scrollTop`, its inline `position`, the listener lists of the container and
  mask elements, the inline styles the size-adaptation writes).
* Statements that can throw a `TypeError` (a property access on a
  `null`/`undefined` reference, `addEventListener` on `null`, …) are modelled
  by functions returning `Option PopupState`; `none` means the method threw.
  State mutations performed before the throwing statement are not tracked
  (the claims under study never look at a post-throw state).
* The measurements `innerEl.offsetWidth` / `innerEl.offsetHeight` are taken
  by the source while the element's inline `width`/`height` are cleared
  (they are only assigned at the very end of `_calculateSize`), so every
  measurement returns the content's natural dimensions, carried in the state
  as `naturalW`/`naturalH`.  The client box of the resolved root element
  (`document.documentElement` when the target is `document.body`, else the
  target itself) is carried as `viewportW`/`viewportH`.
* Event-handler functions are identified by ids (`Handler`); a fresh closure
  (a `function(){…}` expression evaluated anew) gets a fresh id from a
  counter, which is what makes `removeEventListener` with a freshly created
  closure a no-op, exactly as in the browser.
-/

/-- An `onscroll`-style event handler.  `external i` is a caller-installed
handler; `lock top` is the scroll-lock closure installed by `open()`, which
captured the target's `scrollTop` value `top`. -/
inductive Handler
  | external (id : Nat)
  | lock (top : Nat)
deriving DecidableEq, Repr

/-- Semantics of running an `onscroll` handler on the current `scrollTop`:
the scroll-lock closure of `open()` pins `scrollTop` back to the captured
value (`self.targetEl.scrollTop = top`); what external handlers do is not
relevant to any claim, so they are modelled as leaving `scrollTop` alone. -/
def handlerRun : Handler → Nat → Nat
  | Handler.lock top, _ => top
  | Handler.external _, cur => cur

/-- A pixel quantity of the form `num / 2`, as produced by the centering
margins `-adjustHeight/2` / `-adjustWidth/2` of `_calculateSize` (stored
with the fixed denominator 2 kept implicit, so that kernel evaluation stays
cheap). -/
structure HalfPx where
  num : Int
deriving DecidableEq, Repr

/-- The inline styles written by `_calculateSize` (source lines 530-589):
sizes and overflow of the inner element, size and centering of the container,
and — only in the mask-less branch — size and centering of the outer wrapper
(`popupEl`).  String fields hold the literal style values the source
assigns. -/
structure SizeOut where
  innerW : Int
  innerH : Int
  overflowX : String
  overflowY : String
  containerW : Int
  containerH : Int
  containerPos : String
  containerTop : String
  containerLeft : String
  containerMarginTop : HalfPx
  containerMarginLeft : HalfPx
  popupW : Option Int
  popupH : Option Int
  popupTop : Option String
  popupLeft : Option String
  popupMarginTop : Option HalfPx
  popupMarginLeft : Option HalfPx
deriving DecidableEq, Repr

/-- The size-adaptation algorithm of `_calculateSize` (source lines 530-589)
as a pure function of the content's natural dimensions, the resolved root's
client box, and the truthiness of `this.mask`.

Measurement notes, matching the source line by line:
* line 535/536: with the inline width/height just cleared, `offsetWidth` /
  `offsetHeight` are the natural dimensions;
* line 549: the re-measured `offsetHeight` after `overflowX = 'scroll'` is
  still the natural height — no inline width has been applied yet, so the
  content has not been re-flowed (the scrollbar compensation that would have
  made a difference is commented out in the source);
* line 559: the re-measured `offsetWidth` after `overflowY = 'scroll'` is
  likewise still the natural width, so when the height clamp fires the width
  previously clamped on line 545 is overwritten with the natural width. -/
def calculateSizePure (naturalW naturalH maxW maxH : Int) (maskOn : Bool) : SizeOut :=
  let overflowX : String := if naturalW > maxW - 100 then "scroll" else "hidden"
  let adjustWidth1 : Int := if naturalW > maxW - 100 then maxW - 100 else naturalW
  let adjustHeight1 : Int := naturalH
  let overflowY : String := if adjustHeight1 > maxH - 80 then "scroll" else "hidden"
  let adjustHeight2 : Int := if adjustHeight1 > maxH - 80 then maxH - 80 else adjustHeight1
  let adjustWidth2 : Int := if adjustHeight1 > maxH - 80 then naturalW else adjustWidth1
  if maskOn then
    { innerW := adjustWidth2, innerH := adjustHeight2,
      overflowX := overflowX, overflowY := overflowY,
      containerW := adjustWidth2, containerH := adjustHeight2,
      containerPos := "", containerTop := "50%", containerLeft := "50%",
      containerMarginTop := ⟨-adjustHeight2⟩, containerMarginLeft := ⟨-adjustWidth2⟩,
      popupW := none, popupH := none, popupTop := none, popupLeft := none,
      popupMarginTop := none, popupMarginLeft := none }
  else
    { innerW := adjustWidth2, innerH := adjustHeight2,
      overflowX := overflowX, overflowY := overflowY,
      containerW := adjustWidth2, containerH := adjustHeight2,
      containerPos := "relative", containerTop := "0", containerLeft := "0",
      containerMarginTop := ⟨0⟩, containerMarginLeft := ⟨0⟩,
      popupW := some adjustHeight2, popupH := some adjustHeight2,
      popupTop := some "50%", popupLeft := some "50%",
      popupMarginTop := some ⟨-adjustHeight2⟩, popupMarginLeft := some ⟨-adjustWidth2⟩ }

/-- State of one popup instance together with the ambient DOM pieces the
instance's methods read and write (see the module comment for conventions). -/
structure PopupState where
  targetEl : Option Nat
  disposable : Option Bool
  mask : Option Bool
  closeOnMask : Bool
  autoSize : Bool
  delayCalculate : Option Nat
  prefixClass : String
  isClosed : Option Bool
  popupEl : Option Nat
  containerEl : Option Nat
  innerEl : Option Nat
  maskEl : Option Nat
  closeEl : Option Nat
  innerHTML : String
  popupDisplay : String
  popupAttached : Bool
  targetPosition : String
  targetOnscroll : Option Handler
  scrollEvent : Option (Option Handler)
  targetScrollTop : Nat
  naturalW : Int
  naturalH : Int
  viewportW : Int
  viewportH : Int
  containerListeners : List Nat
  maskListeners : List Nat
  nextClosureId : Nat
  nextElemId : Nat
  pendingSizeCalc : Bool
  sizeStyles : Option SizeOut
deriving DecidableEq, Repr, Inhabited

/-- The `targetEl` binding expression of the `Popup` constructor
(source line 73):

`this.targetEl = selector ? (UD.querySelector(selector) && document.body) : document.body;`

`selector` is truthy iff it is a non-empty string; `&&` yields its right
operand when the left is truthy and the (falsy) left operand — here `null` —
otherwise.  `q` is the `querySelector` capability (first match in the
document), `body` is `document.body`. -/
def popupTargetEl (selector : Option String) (q : String → Option Nat) (body : Nat) :
    Option Nat :=
  match selector with
  | none => some body
  | some sel =>
    if sel = "" then some body
    else
      match q sel with
      | some _ => some body
      | none => none

/-- The `Popup` constructor (source lines 65-138): binds `targetEl` via
`popupTargetEl` and sets the documented defaults (`disposable = true`,
`mask = true`, `closeOnMask = false`, `autoSize = true`, element references
and `_scrollEvent` undefined).  The trailing arguments carry the ambient DOM
data of the bound target and content (see module comment). -/
def mkPopup (selector : Option String) (q : String → Option Nat) (body : Nat)
    (naturalW naturalH viewportW viewportH : Int)
    (scrollTop : Nat) (onscroll : Option Handler) : PopupState :=
  { targetEl := popupTargetEl selector q body
    disposable := some true
    mask := some true
    closeOnMask := false
    autoSize := true
    delayCalculate := none
    prefixClass := ""
    isClosed := none
    popupEl := none
    containerEl := none
    innerEl := none
    maskEl := none
    closeEl := none
    innerHTML := ""
    popupDisplay := ""
    popupAttached := false
    targetPosition := ""
    targetOnscroll := onscroll
    scrollEvent := none
    targetScrollTop := scrollTop
    naturalW := naturalW
    naturalH := naturalH
    viewportW := viewportW
    viewportH := viewportH
    containerListeners := []
    maskListeners := []
    nextClosureId := 0
    nextElemId := 1
    pendingSizeCalc := false
    sizeStyles := none }

/-- The shared callback map `_eventsList` (source line 715): a mapping from
the four named hooks to at most one handler id each. -/
structure EventsList where
  beforeClose : Option Nat
  afterClose : Option Nat
  okCallback : Option Nat
  cancelCallback : Option Nat
deriving DecidableEq, Repr

/-- The empty `_eventsList` object literal `{}` of source line 715. -/
def emptyEvents : EventsList := ⟨none, none, none, none⟩

/-- `_eventsList` is a property of `Popup.prototype` (source line 715), so
property lookup resolves it to one and the same object for every instance;
no instance ever gets an own `_eventsList` property (the methods only assign
to properties *of* that object, which does not shadow).  A `ProtoWorld` is
the prototype-level state shared by all instances. -/
structure ProtoWorld where
  protoEvents : EventsList
deriving DecidableEq, Repr

/-- Reading `this._eventsList` on instance `i`: the lookup walks to the
prototype, so every instance sees the same object. -/
def eventsListOf (w : ProtoWorld) (_i : Nat) : EventsList :=
  w.protoEvents

/-- `this._eventsList.okCallback = f` executed on instance `i` (as in
`alert`, source line 337, `confirm` line 406, `prompt` line 483): a property
write on the object found by lookup, i.e. on the shared prototype object. -/
def registerOkCallback (w : ProtoWorld) (_i : Nat) (h : Nat) : ProtoWorld :=
  { w with protoEvents := { w.protoEvents with okCallback := some h } }

/-- The options object accepted by `create` (source lines 144-162); absent
fields are `none`. Handlers are identified by ids. -/
structure CreateOptions where
  content : String
  prefixClassOpt : Option String
  closeOnMaskOpt : Option Bool
  autoSizeOpt : Option Bool
  delayCalculateOpt : Option Nat
  beforeCloseOpt : Option Nat
  afterCloseOpt : Option Nat
deriving DecidableEq, Repr

/-- `_createDOM(content)` (source lines 597-631): creates the wrapper,
container, inner, mask and close elements (fresh ids), sets the target's
inline `position` to `'relative'` — throwing if `targetEl` is `null` —
stores the caller markup in the inner element, hides the wrapper and appends
it to the target.  Class bookkeeping on the created elements is not tracked
(no claim mentions it); the mask element is created unconditionally, exactly
as in the source. -/
def createDOM (s : PopupState) (content : String) : Option PopupState :=
  match s.targetEl with
  | none => none
  | some _ =>
    let pid := s.nextElemId
    some { s with
      popupEl := some pid
      containerEl := some (pid + 1)
      innerEl := some (pid + 2)
      maskEl := some (pid + 3)
      closeEl := some (pid + 4)
      nextElemId := pid + 5
      targetPosition := "relative"
      innerHTML := content
      popupDisplay := "none"
      popupAttached := true }

/-- `_bindEvents()` (source lines 650-662): attaches a freshly created
delegating closure to the container, and — when `this.mask` is truthy —
another fresh closure to the mask element.  `addEvent` on a `null` element
throws. -/
def bindEvents (s : PopupState) : Option PopupState :=
  match s.containerEl with
  | none => none
  | some _ =>
    let s := { s with
      containerListeners := s.containerListeners ++ [s.nextClosureId]
      nextClosureId := s.nextClosureId + 1 }
    if s.mask = some true then
      match s.maskEl with
      | none => none
      | some _ =>
        some { s with
          maskListeners := s.maskListeners ++ [s.nextClosureId]
          nextClosureId := s.nextClosureId + 1 }
    else some s

/-- `create(options)` (source lines 164-178).  Note the source's two
consecutive assignments
`this._eventsList.beforeClose = options.beforeClose;`
`this._eventsList.beforeClose = options.afterClose;` (lines 170-171): the
second one targets the `beforeClose` slot again, so it overwrites the first
and the `afterClose` slot is never written.  Because `_eventsList` is the
shared prototype object, the callback map is threaded separately (`ev`). -/
def create (s : PopupState) (ev : EventsList) (opts : CreateOptions) :
    Option (PopupState × EventsList) :=
  let s := { s with
    prefixClass := opts.prefixClassOpt.getD ""
    closeOnMask := opts.closeOnMaskOpt.getD false
    autoSize := opts.autoSizeOpt.getD true
    delayCalculate := opts.delayCalculateOpt }
  let ev := { ev with beforeClose := opts.beforeCloseOpt }
  let ev := { ev with beforeClose := opts.afterCloseOpt }
  let s := { s with disposable := some false }
  match createDOM s opts.content with
  | none => none
  | some s =>
    match bindEvents s with
    | none => none
    | some s => some (s, ev)

/-- `_calculateSize()` as a state transformer (source lines 530-589): throws
when `innerEl` is `null` (line 532), when the resolved root is `null`
(line 541, i.e. when `targetEl` is `null`), when `containerEl` is `null`
(line 567), and — in the mask-less branch only — when `popupEl` is `null`
(line 582); otherwise records the computed styles. -/
def calcSizeState (s : PopupState) : Option PopupState :=
  match s.innerEl with
  | none => none
  | some _ =>
    match s.targetEl with
    | none => none
    | some _ =>
      match s.containerEl with
      | none => none
      | some _ =>
        let out := calculateSizePure s.naturalW s.naturalH s.viewportW s.viewportH
          (s.mask = some true)
        if s.mask = some true then some { s with sizeStyles := some out }
        else
          match s.popupEl with
          | none => none
          | some _ => some { s with sizeStyles := some out }

/-- The callback scheduled by `open()` when `delayCalculate` is set
(source lines 209-211): `function(){ self._calculateSize(); }` — it calls
`_calculateSize` directly, with no guard of any kind. -/
def deferredSizeCalc (s : PopupState) : Option PopupState :=
  calcSizeState s

/-- `open()` (source lines 188-218): reads `targetEl.scrollTop` (throwing on
a `null` target), clears `isClosed`, and when `this.mask` is truthy captures
the target's current `onscroll` into `_scrollEvent` — but only when
`_scrollEvent` is literally `undefined` (`typeof … === 'undefined'`; a
captured `null` handler is `'object'`, so it is not re-captured) — then
installs the scroll-lock closure.  Shows the wrapper (throwing on a `null`
`popupEl`) and, when `autoSize` holds, either schedules the deferred size
calculation or runs `_calculateSize` synchronously. -/
def popupOpen (s : PopupState) : Option PopupState :=
  match s.targetEl with
  | none => none
  | some _ =>
    let top := s.targetScrollTop
    let s := { s with isClosed := some false }
    let s :=
      if s.mask = some true then
        let s :=
          if s.scrollEvent = none then { s with scrollEvent := some s.targetOnscroll }
          else s
        { s with targetOnscroll := some (Handler.lock top) }
      else s
    match s.popupEl with
    | none => none
    | some _ =>
      let s := { s with popupDisplay := "" }
      if s.autoSize then
        if s.delayCalculate.isSome then some { s with pendingSizeCalc := true }
        else calcSizeState s
      else some s

/-- The body of `close()` without the disposable branch (source lines
229-235): sets `isClosed`, restores the target's `onscroll` from
`_scrollEvent` when `this.mask` is truthy (assigning a still-`undefined`
`_scrollEvent` leaves the slot `null`, hence `Option.join`; a `null` target
throws), and hides the wrapper (a `null` `popupEl` throws). -/
def closeCore (s : PopupState) : Option PopupState :=
  let s := { s with isClosed := some true }
  let step :=
    if s.mask = some true then
      match s.targetEl with
      | none => none
      | some _ => some { s with targetOnscroll := s.scrollEvent.join }
    else some s
  match step with
  | none => none
  | some s =>
    match s.popupEl with
    | none => none
    | some _ => some { s with popupDisplay := "none" }

/-- The value `close()` returns (source lines 238-243): the literal `true`
(`completed`) in the disposable branch, `this` (`inst`) otherwise. -/
inductive CloseRet
  | completed
  | inst
deriving DecidableEq, Repr

/-- `destroy()` (source lines 267-291): force-closes when `!this.isClosed`
(truthy for both `undefined` and `false`) after clearing `disposable` to
prevent re-entry; calls `removeEvent` on the container — and on the mask
when `this.mask` is truthy — passing a *freshly created* closure (so only a
listener identical to that fresh closure would be removed; `removeEvent` on
a `null` element throws); clears the target's inline `position`; nulls
`targetEl`, `disposable` and `mask`; removes the wrapper from its parent
(throwing when the wrapper is `null` or detached) and nulls `popupEl`. -/
def popupDestroy (s : PopupState) : Option PopupState :=
  let step1 :=
    if s.isClosed = some true then some s
    else closeCore { s with disposable := some false }
  match step1 with
  | none => none
  | some s =>
    match s.containerEl with
    | none => none
    | some _ =>
      let s := { s with
        containerListeners := s.containerListeners.filter (fun c => c ≠ s.nextClosureId)
        nextClosureId := s.nextClosureId + 1 }
      let step2 :=
        if s.mask = some true then
          match s.maskEl with
          | none => none
          | some _ =>
            some { s with
              maskListeners := s.maskListeners.filter (fun c => c ≠ s.nextClosureId)
              nextClosureId := s.nextClosureId + 1 }
        else some s
      match step2 with
      | none => none
      | some s =>
        match s.targetEl, s.popupEl with
        | some _, some _ =>
          if s.popupAttached then
            some { s with
              targetPosition := ""
              targetEl := none
              disposable := none
              mask := none
              popupEl := none
              popupAttached := false }
          else none
        | _, _ => none

/-- `close()` (source lines 228-244): runs the close body, then — when
`this.disposable` is truthy — destroys the instance and returns `true`;
otherwise returns the instance.  Inside that `destroy()` call `isClosed` is
already `true`, so `destroy` does not re-enter `close` (mirroring the
source's guard comment on line 271). -/
def popupClose (s : PopupState) : Option (PopupState × CloseRet) :=
  match closeCore s with
  | none => none
  | some s =>
    if s.disposable = some true then
      match popupDestroy s with
      | none => none
      | some s => some (s, CloseRet.completed)
    else some (s, CloseRet.inst)

/-- Lifecycle operations a caller can issue between creation and disposal. -/
inductive LCOp
  | op
  | cl
deriving DecidableEq, Repr

/-- Run one lifecycle operation. -/
def applyOp (s : PopupState) : LCOp → Option PopupState
  | LCOp.op => popupOpen s
  | LCOp.cl => (popupClose s).map Prod.fst

/-- Run a sequence of lifecycle operations, stopping at the first throw. -/
def applyOps (s : PopupState) : List LCOp → Option PopupState
  | [] => some s
  | o :: rest =>
    match applyOp s o with
    | none => none
    | some s' => applyOps s' rest

/-- `startsWithC cs ps` holds when the character list `cs` begins with
`ps`. -/
def startsWithC : List Char → List Char → Bool
  | _, [] => true
  | [], _ :: _ => false
  | c :: cs, p :: ps => c = p && startsWithC cs ps

/-- `hasSub pat cs` holds when `pat` occurs contiguously inside `cs`. -/
def hasSub (pat : List Char) : List Char → Bool
  | [] => pat.isEmpty
  | c :: cs => startsWithC (c :: cs) pat || hasSub pat cs

/-- Substring test on strings (used to inspect generated markup). -/
def strContains (s pat : String) : Bool :=
  hasSub pat.data s.data

/-- The dialog-specific class prefix the `prompt` preset assigns
(source line 493): `this.prefixClass = 'prompot-';`. -/
def promptPrefixClass : String := "prompot-"

/-- Default button/placeholder texts of `prompt` (source lines 470-472). -/
def promptDefaultOkTxt : String := "确定"

/-- Default cancel text of `prompt` (source line 471). -/
def promptDefaultCancelTxt : String := "取消"

/-- Default placeholder text of `prompt` (source line 472). -/
def promptDefaultPlaceholder : String := "请输入"

/-- The markup fragment the `prompt` preset builds (source line 495). -/
def promptContent (txt okTxt cancelTxt placeholder : String) : String :=
  "<p class=\"prompot-content\">" ++ txt ++
  "</p><input class=\"prompot-input\" type=\"text\" placeholder=" ++ placeholder ++
  "><a class=\"prompot-ok popup-ok\">" ++ okTxt ++
  "</a><a class=\"prompot-cancel popup-cancel\">" ++ cancelTxt ++ "</a>"

/-- A `create` call supplying distinct `beforeClose` (id 1) and `afterClose`
(id 2) handlers. -/
def c2opts : CreateOptions :=
  { content := "<p>x</p>", prefixClassOpt := none, closeOnMaskOpt := none,
    autoSizeOpt := none, delayCalculateOpt := none,
    beforeCloseOpt := some 1, afterCloseOpt := some 2 }

/-- Witness state: a created, non-disposable, open-ready popup bound to
target `0`, with 50×40 content in a 300×200 viewport (field values as
`Popup(...)` followed by `create` would leave them). -/
def witState : PopupState :=
  { targetEl := some 0, disposable := some false, mask := some true,
    closeOnMask := false, autoSize := true, delayCalculate := none,
    prefixClass := "", isClosed := none, popupEl := some 1,
    containerEl := some 2, innerEl := some 3, maskEl := some 4, closeEl := some 5,
    innerHTML := "<p>x</p>", popupDisplay := "none", popupAttached := true,
    targetPosition := "relative", targetOnscroll := some (Handler.external 9),
    scrollEvent := none, targetScrollTop := 10,
    naturalW := 50, naturalH := 40, viewportW := 300, viewportH := 200,
    containerListeners := [0], maskListeners := [1], nextClosureId := 2,
    nextElemId := 6, pendingSizeCalc := false, sizeStyles := none }

/-- Witness state for C3: a disposable (preset-style) open popup. -/
def c3wit : PopupState :=
  { witState with disposable := some true, isClosed := some false, popupDisplay := "" }

/-- The instance produced by `Popup()` followed by `create` (used to refute
the original C8 claim on the code's own creation pipeline). -/
def c8created : PopupState :=
  ((create (mkPopup none (fun _ => none) 0 300 200 800 600 0 none) emptyEvents
      { content := "<p>hi</p>", prefixClassOpt := none, closeOnMaskOpt := none,
        autoSizeOpt := none, delayCalculateOpt := none,
        beforeCloseOpt := none, afterCloseOpt := none }).map Prod.fst).getD default

/-- A popup created with `delayCalculate = 1000`, then opened — which
schedules the deferred size calculation — and then destroyed while that
delay is still pending. -/
def c9opened : PopupState :=
  (popupOpen (((create (mkPopup none (fun _ => none) 0 300 200 800 600 0 none)
      emptyEvents
      { content := "<p>z</p>", prefixClassOpt := none, closeOnMaskOpt := none,
        autoSizeOpt := none, delayCalculateOpt := some 1000,
        beforeCloseOpt := none, afterCloseOpt := none }).map Prod.fst).getD
      default)).getD default

/-- The state after `destroy()` runs during the pending delay. -/
def c9destroyed : PopupState := (popupDestroy c9opened).getD default

/-- The state shape that `create` leaves a mask-bearing, non-disposable
popup in and that `open`/`close` cycles preserve: fixed configuration and
live element references. -/
def ScrollBase (s : PopupState) : Prop :=
  s.disposable = some false ∧ s.mask = some true
  ∧ s.targetEl.isSome ∧ s.popupEl.isSome ∧ s.innerEl.isSome ∧ s.containerEl.isSome

/-- Invariant after the first `open()` of a mask-bearing, non-disposable
popup whose target's `onscroll` was `h₀` before that first open: the saved
handler slot `_scrollEvent` holds exactly the captured `h₀` forever, and the
target's `onscroll` slot is a scroll-lock closure while open and `h₀` again
while closed. -/
def ScrollInv (h₀ : Option Handler) (s : PopupState) : Prop :=
  ScrollBase s ∧ s.scrollEvent = some h₀
  ∧ ((s.isClosed = some false ∧ ∃ tp, s.targetOnscroll = some (Handler.lock tp))
     ∨ (s.isClosed = some true ∧ s.targetOnscroll = h₀))

/-! ### Shared helper lemmas about the size-adaptation algorithm -/

/-- The applied height is always clamped to the vertical margin bound. -/
lemma calculateSizePure_height_le (nW nH mW mH : Int) (mk : Bool) :
    (calculateSizePure nW nH mW mH mk).containerH ≤ mH - 80
    ∧ (calculateSizePure nW nH mW mH mk).innerH ≤ mH - 80 := by
  unfold calculateSizePure
  constructor <;> cases mk <;> simp <;> split <;> omega

/-- When the height clamp does not fire, the applied width respects the
horizontal margin bound. -/
lemma calculateSizePure_width_le (nW nH mW mH : Int) (mk : Bool)
    (hh : nH ≤ mH - 80) :
    (calculateSizePure nW nH mW mH mk).containerW ≤ mW - 100
    ∧ (calculateSizePure nW nH mW mH mk).innerW ≤ mW - 100 := by
  unfold calculateSizePure
  have hnot : ¬ nH > mH - 80 := by omega
  constructor <;> cases mk <;> simp [hnot] <;> split <;> omega

/-! ### C1 — target binding of the construction entry point -/

/-- C1: the claim says a selector that matches should bind the popup to the
first matching element, and a selector that matches nothing should fall back
to the document body.  Evaluating the constructor's binding expression at a
document in which `".test"` matches element `7` (with `document.body = 0`)
shows the code instead binds `document.body` on a match and `null` (no
element at all) on a miss — the source's own doc comment promises a popup
"based on that DOM node", so the `&&` on line 73 is a slip (for `||` the
documented behaviour would result). -/
theorem popup_targetEl_bug :
    popupTargetEl (some ".test") (fun sel => if sel = ".test" then some 7 else none) 0
      = some 0
    ∧ (some 7 : Option Nat) ≠ some 0
    ∧ popupTargetEl (some ".missing") (fun sel => if sel = ".test" then some 7 else none) 0
      = none
    ∧ popupTargetEl none (fun sel => if sel = ".test" then some 7 else none) 0
      = some 0 := by
  refine ⟨rfl, by decide, rfl, rfl⟩

/-! ### C2 — callback registration in create() -/


/-- C2: the claim says `create()` stores the supplied `beforeClose` handler
under the `beforeClose` hook and the supplied `afterClose` handler under the
`afterClose` hook.  Evaluating `create` at handlers `1`/`2` shows the code
instead leaves the `beforeClose` slot holding the `afterClose` handler
(line 171 assigns `options.afterClose` into `beforeClose`, overwriting
line 170) and never writes the `afterClose` slot — even though the source
documents both options and its dispatcher reads both slots. -/
theorem create_callback_slots_bug :
    (create (mkPopup none (fun _ => none) 0 300 200 800 600 0 none) emptyEvents c2opts).map
        (fun r => r.2)
      = some { beforeClose := some 2, afterClose := none,
               okCallback := none, cancelCallback := none }
    ∧ (some 2 : Option Nat) ≠ some 1 := by
  refine ⟨by decide, by decide⟩

/-! ### C10 — the callback map is shared prototype state -/

/-- C10 counterexample: the claim says registering a callback through
instance `0` leaves the callback map of the distinct instance `1` unchanged.
Starting from the empty prototype map and registering `okCallback := 5`
through instance `0` changes what instance `1` reads, because both
instances resolve `_eventsList` to the same prototype object
(source line 715). -/
theorem events_shared_counterexample :
    ¬ (eventsListOf (registerOkCallback ⟨emptyEvents⟩ 0 5) 1
        = eventsListOf (⟨emptyEvents⟩ : ProtoWorld) 1) := by
  decide

/-- C10 (amended): `_eventsList` is a single object stored on
`Popup.prototype` and shared by every instance, so registering a callback
through any instance updates the map that every other instance reads. -/
theorem events_shared_across_instances (w : ProtoWorld) (a b h : Nat) :
    eventsListOf (registerOkCallback w a h) b
      = { eventsListOf w b with okCallback := some h } :=
  rfl

/-! ### C7 — class names generated by the prompt preset -/

/-- C7 counterexample: the claim says the prompt preset sets the prefix
`prompt-` and its markup carries the classes `prompt-content`,
`prompt-input`, `prompt-ok`, `prompt-cancel`.  The source (lines 493-495)
spells the prefix and every preset-specific class `prompot-`. -/
theorem prompt_classes_counterexample :
    ¬ (promptPrefixClass = "prompt-"
       ∧ strContains
           (promptContent "msg" promptDefaultOkTxt promptDefaultCancelTxt
             promptDefaultPlaceholder)
           "prompt-content" = true) := by
  decide

/-- C7 (amended): the prompt preset sets the dialog-specific prefix
`prompot-`, and its markup fragment carries the classes `prompot-content`,
`prompot-input`, `prompot-ok` and `prompot-cancel`, alongside the shared
`popup-ok` / `popup-cancel` markers. -/
theorem prompt_classes_actual :
    promptPrefixClass = "prompot-"
    ∧ strContains
        (promptContent "msg" promptDefaultOkTxt promptDefaultCancelTxt
          promptDefaultPlaceholder) "prompot-content" = true
    ∧ strContains
        (promptContent "msg" promptDefaultOkTxt promptDefaultCancelTxt
          promptDefaultPlaceholder) "prompot-input" = true
    ∧ strContains
        (promptContent "msg" promptDefaultOkTxt promptDefaultCancelTxt
          promptDefaultPlaceholder) "prompot-ok popup-ok" = true
    ∧ strContains
        (promptContent "msg" promptDefaultOkTxt promptDefaultCancelTxt
          promptDefaultPlaceholder) "prompot-cancel popup-cancel" = true := by
  refine ⟨rfl, by decide, by decide, by decide, by decide⟩

/-! ### C5 — exact fit below the margins -/

/-- C5: for natural content dimensions strictly below `viewport - margins`,
size adaptation applies exactly the natural width and height to the inner
element and the container, with both overflow directions set to `hidden`
(no clamping, no scrollbars) — as the claim states. -/
theorem calculateSize_fit_exact (nW nH mW mH : Int) (mk : Bool)
    (hw : nW < mW - 100) (hh : nH < mH - 80) :
    (calculateSizePure nW nH mW mH mk).innerW = nW
    ∧ (calculateSizePure nW nH mW mH mk).innerH = nH
    ∧ (calculateSizePure nW nH mW mH mk).containerW = nW
    ∧ (calculateSizePure nW nH mW mH mk).containerH = nH
    ∧ (calculateSizePure nW nH mW mH mk).overflowX = "hidden"
    ∧ (calculateSizePure nW nH mW mH mk).overflowY = "hidden" := by
  unfold calculateSizePure
  have h1 : ¬ nW > mW - 100 := by omega
  have h2 : ¬ nH > mH - 80 := by omega
  refine ⟨?_, ?_, ?_, ?_, ?_, ?_⟩ <;> cases mk <;> simp [h1, h2]

/-- Witness for C5 at natural size 50×40 in a 300×200 viewport. -/
theorem calculateSize_fit_exact_witness :
    ((50 : Int) < 300 - 100 ∧ (40 : Int) < 200 - 80)
    ∧ ((calculateSizePure 50 40 300 200 true).innerW = 50
       ∧ (calculateSizePure 50 40 300 200 true).innerH = 40
       ∧ (calculateSizePure 50 40 300 200 true).containerW = 50
       ∧ (calculateSizePure 50 40 300 200 true).containerH = 40
       ∧ (calculateSizePure 50 40 300 200 true).overflowX = "hidden"
       ∧ (calculateSizePure 50 40 300 200 true).overflowY = "hidden") :=
  ⟨⟨by decide, by decide⟩,
    calculateSize_fit_exact 50 40 300 200 true (by decide) (by decide)⟩

/-! ### C4 — size bounds after open() -/

/-- C4 counterexample: the claim says the width and height applied by size
adaptation never exceed `viewportWidth - 100` / `viewportHeight - 80` for
all natural content and viewport dimensions.  At natural size 500×500 in a
200×200 viewport both clamps fire, and the height clamp's width re-measure
(source line 559) overwrites the clamped width with the natural width 500,
which exceeds `200 - 100`. -/
theorem size_width_bound_counterexample :
    ¬ ((calculateSizePure 500 500 200 200 true).containerW ≤ 200 - 100
       ∧ (calculateSizePure 500 500 200 200 true).containerH ≤ 200 - 80) := by
  decide

/-- C4 (amended): for a popup with `autoSize` enabled and no delay
configured, `open()` succeeds, leaves the instance not closed, and applies
the styles computed by the size-adaptation algorithm; the applied height
never exceeds `viewportHeight - 80`, and the applied width never exceeds
`viewportWidth - 100` **provided the natural content height fits within
`viewportHeight - 80`** — when the height clamp fires, the width is
re-measured from the content's natural width (source line 559) and may
exceed the bound. -/
theorem open_size_bounds (s : PopupState) (m : Bool) (t p i c : Nat)
    (ht : s.targetEl = some t) (hp : s.popupEl = some p)
    (hi : s.innerEl = some i) (hc : s.containerEl = some c)
    (ha : s.autoSize = true) (hdel : s.delayCalculate = none)
    (hm : s.mask = some m) :
    ∃ s', popupOpen s = some s'
      ∧ s'.isClosed = some false
      ∧ s'.sizeStyles
          = some (calculateSizePure s.naturalW s.naturalH s.viewportW s.viewportH m)
      ∧ (calculateSizePure s.naturalW s.naturalH s.viewportW s.viewportH m).containerH
          ≤ s.viewportH - 80
      ∧ (calculateSizePure s.naturalW s.naturalH s.viewportW s.viewportH m).innerH
          ≤ s.viewportH - 80
      ∧ (s.naturalH ≤ s.viewportH - 80 →
          (calculateSizePure s.naturalW s.naturalH s.viewportW s.viewportH m).containerW
            ≤ s.viewportW - 100
          ∧ (calculateSizePure s.naturalW s.naturalH s.viewportW s.viewportH m).innerW
            ≤ s.viewportW - 100) := by
  have hb1 := calculateSizePure_height_le s.naturalW s.naturalH s.viewportW s.viewportH m
  have hb2 := calculateSizePure_width_le s.naturalW s.naturalH s.viewportW s.viewportH m
  by_cases hse : s.scrollEvent = none <;> cases m <;>
    simp only [popupOpen, calcSizeState, ht, hp, hi, hc, ha, hdel, hm, hse,
      Option.isSome_none, Bool.false_eq_true, if_false, if_true, reduceCtorEq,
      Option.some.injEq, decide_eq_true_eq, if_neg, ite_false, ite_true,
      decide_True, decide_False, not_false_iff] <;>
    exact ⟨_, rfl, by simp, by simp, hb1.1, hb1.2, fun hh => ⟨(hb2 hh).1, (hb2 hh).2⟩⟩


/-- Witness for C4 (amended) at `witState`. -/
theorem open_size_bounds_witness :
    ∃ s', popupOpen witState = some s'
      ∧ s'.isClosed = some false
      ∧ s'.sizeStyles
          = some (calculateSizePure witState.naturalW witState.naturalH
              witState.viewportW witState.viewportH true)
      ∧ (calculateSizePure witState.naturalW witState.naturalH
            witState.viewportW witState.viewportH true).containerH
          ≤ witState.viewportH - 80
      ∧ (calculateSizePure witState.naturalW witState.naturalH
            witState.viewportW witState.viewportH true).innerH
          ≤ witState.viewportH - 80
      ∧ (witState.naturalH ≤ witState.viewportH - 80 →
          (calculateSizePure witState.naturalW witState.naturalH
              witState.viewportW witState.viewportH true).containerW
            ≤ witState.viewportW - 100
          ∧ (calculateSizePure witState.naturalW witState.naturalH
              witState.viewportW witState.viewportH true).innerW
            ≤ witState.viewportW - 100) :=
  open_size_bounds witState true 0 1 3 2 rfl rfl rfl rfl rfl rfl rfl

/-! ### C3 — close() -/

/-- C3: for every open popup instance, `close()` sets `isClosed` to true and
hides the popup subtree; a non-disposable instance is returned itself
(`CloseRet.inst`), while a disposable instance is additionally destroyed
(wrapper removed and nulled, target/disposable/mask references nulled) and
the return value is the completion signal `CloseRet.completed` (the source's
literal `true`), which is distinct from the instance return. -/
theorem close_spec (s : PopupState) (p t : Nat) (d m : Bool)
    (_hOpen : s.isClosed = some false)
    (hp : s.popupEl = some p) (ht : s.targetEl = some t)
    (hd : s.disposable = some d) (hm : s.mask = some m)
    (hc : s.containerEl.isSome) (hme : m = true → s.maskEl.isSome)
    (hat : s.popupAttached = true) :
    ∃ s' r, popupClose s = some (s', r)
      ∧ s'.isClosed = some true
      ∧ (d = false → r = CloseRet.inst ∧ s'.popupDisplay = "none" ∧ s'.popupEl = some p)
      ∧ (d = true → r = CloseRet.completed
          ∧ s'.popupEl = none ∧ s'.targetEl = none ∧ s'.disposable = none
          ∧ s'.mask = none ∧ s'.popupAttached = false)
      ∧ CloseRet.completed ≠ CloseRet.inst := by
  obtain ⟨c, hc2⟩ := Option.isSome_iff_exists.mp hc
  cases m with
  | false =>
    cases d with
    | false =>
      simp only [popupClose, closeCore, hm, hp, ht, hd, reduceCtorEq, if_false,
        Bool.false_eq_true, ite_false]
      exact ⟨_, _, rfl, rfl, fun _ => ⟨rfl, rfl, rfl⟩, fun h => by simp at h, by simp⟩
    | true =>
      simp only [popupClose, closeCore, popupDestroy, hm, hp, ht, hd, hc2, hat,
        reduceCtorEq, if_false, Bool.false_eq_true, ite_false, ite_true]
      exact ⟨_, _, rfl, rfl, fun h => by simp at h,
        fun _ => ⟨rfl, rfl, rfl, rfl, rfl, rfl⟩, by simp⟩
  | true =>
    obtain ⟨me, hme2⟩ := Option.isSome_iff_exists.mp (hme rfl)
    cases d with
    | false =>
      simp only [popupClose, closeCore, hm, hp, ht, hd, reduceCtorEq, if_false,
        if_true, Bool.false_eq_true, ite_false, ite_true]
      exact ⟨_, _, rfl, rfl, fun _ => ⟨rfl, rfl, rfl⟩, fun h => by simp at h, by simp⟩
    | true =>
      simp only [popupClose, closeCore, popupDestroy, hm, hp, ht, hd, hc2, hme2, hat,
        reduceCtorEq, if_false, if_true, Bool.false_eq_true, ite_false, ite_true]
      exact ⟨_, _, rfl, rfl, fun h => by simp at h,
        fun _ => ⟨rfl, rfl, rfl, rfl, rfl, rfl⟩, by simp⟩


/-- Witness for C3 at the disposable open instance `c3wit`. -/
theorem close_spec_witness :
    ∃ s' r, popupClose c3wit = some (s', r)
      ∧ s'.isClosed = some true
      ∧ (true = false → r = CloseRet.inst ∧ s'.popupDisplay = "none" ∧ s'.popupEl = some 1)
      ∧ (true = true → r = CloseRet.completed
          ∧ s'.popupEl = none ∧ s'.targetEl = none ∧ s'.disposable = none
          ∧ s'.mask = none ∧ s'.popupAttached = false)
      ∧ CloseRet.completed ≠ CloseRet.inst :=
  close_spec c3wit 1 0 true true rfl rfl rfl rfl rfl (by decide) (fun _ => by decide) rfl

/-! ### C8 — destroy() -/

/-- C8 (amended): for every non-destroyed instance, `destroy()` succeeds,
clears the target's inline position style and nulls the `targetEl`,
`disposable`, `mask` and `popupEl` references — but it does **not** detach
the container or mask handlers bound at creation (both `removeEvent` calls
pass freshly created closures, which match no attached listener, so the
container listener list and the mask listener list are left exactly as they
were) and it leaves the `containerEl`, `innerEl`, `maskEl` and `closeEl`
references set. -/
theorem destroy_spec (s : PopupState) (m : Bool) (c₁ t p c : Nat)
    (ht : s.targetEl = some t) (hp : s.popupEl = some p)
    (hc : s.containerEl = some c) (hm : s.mask = some m)
    (hme : m = true → s.maskEl.isSome) (hat : s.popupAttached = true)
    (hfresh : s.nextClosureId ∉ s.containerListeners)
    (hfreshm : s.nextClosureId + 1 ∉ s.maskListeners)
    (hmem : c₁ ∈ s.containerListeners) :
    ∃ s', popupDestroy s = some s'
      ∧ s'.targetPosition = ""
      ∧ s'.targetEl = none ∧ s'.disposable = none ∧ s'.mask = none ∧ s'.popupEl = none
      ∧ s'.containerEl = some c ∧ s'.innerEl = s.innerEl
      ∧ s'.maskEl = s.maskEl ∧ s'.closeEl = s.closeEl
      ∧ s'.containerListeners = s.containerListeners
      ∧ s'.maskListeners = s.maskListeners
      ∧ c₁ ∈ s'.containerListeners
      ∧ (∀ c₂, c₂ ∈ s.maskListeners → c₂ ∈ s'.maskListeners) := by
  have hfil : List.filter (fun cc => cc ≠ s.nextClosureId) s.containerListeners
      = s.containerListeners := by
    apply List.filter_eq_self.mpr
    intro a ha
    have hne : a ≠ s.nextClosureId := fun h => hfresh (h ▸ ha)
    simpa using hne
  have hfil2 : List.filter (fun cc => cc ≠ s.nextClosureId + 1) s.maskListeners
      = s.maskListeners := by
    apply List.filter_eq_self.mpr
    intro a ha
    have hne : a ≠ s.nextClosureId + 1 := fun h => hfreshm (h ▸ ha)
    simpa using hne
  have hnec : c₁ ≠ s.nextClosureId := fun h => hfresh (h ▸ hmem)
  by_cases hcl : s.isClosed = some true
  · cases m with
    | false =>
      simp only [popupDestroy, closeCore, ht, hp, hc, hm, hcl, hat,
        reduceCtorEq, if_false, if_true, Bool.false_eq_true, ite_false, ite_true]
      refine ⟨_, rfl, rfl, rfl, rfl, rfl, rfl, rfl, rfl, rfl, rfl, ?_, rfl, ?_,
        fun c₂ h2 => h2⟩
      · show List.filter (fun cc => cc ≠ s.nextClosureId) s.containerListeners
            = s.containerListeners
        exact hfil
      · show c₁ ∈ List.filter (fun cc => cc ≠ s.nextClosureId) s.containerListeners
        rw [hfil]
        exact hmem
    | true =>
      obtain ⟨me, hme2⟩ := Option.isSome_iff_exists.mp (hme rfl)
      simp only [popupDestroy, closeCore, ht, hp, hc, hm, hme2, hcl, hat,
        reduceCtorEq, if_false, if_true, Bool.false_eq_true, ite_false, ite_true]
      refine ⟨_, rfl, rfl, rfl, rfl, rfl, rfl, rfl, rfl, rfl, rfl, ?_, ?_, ?_, ?_⟩
      · show List.filter (fun cc => cc ≠ s.nextClosureId) s.containerListeners
            = s.containerListeners
        exact hfil
      · show List.filter (fun cc => cc ≠ s.nextClosureId + 1) s.maskListeners
            = s.maskListeners
        exact hfil2
      · show c₁ ∈ List.filter (fun cc => cc ≠ s.nextClosureId) s.containerListeners
        rw [hfil]
        exact hmem
      · intro c₂ h2
        show c₂ ∈ List.filter (fun cc => cc ≠ s.nextClosureId + 1) s.maskListeners
        rw [hfil2]
        exact h2
  · cases m with
    | false =>
      simp only [popupDestroy, closeCore, ht, hp, hc, hm, hcl, hat,
        reduceCtorEq, if_false, if_true, Bool.false_eq_true, ite_false, ite_true]
      refine ⟨_, rfl, rfl, rfl, rfl, rfl, rfl, rfl, rfl, rfl, rfl, ?_, rfl, ?_,
        fun c₂ h2 => h2⟩
      · show List.filter (fun cc => cc ≠ s.nextClosureId) s.containerListeners
            = s.containerListeners
        exact hfil
      · show c₁ ∈ List.filter (fun cc => cc ≠ s.nextClosureId) s.containerListeners
        rw [hfil]
        exact hmem
    | true =>
      obtain ⟨me, hme2⟩ := Option.isSome_iff_exists.mp (hme rfl)
      simp only [popupDestroy, closeCore, ht, hp, hc, hm, hme2, hcl, hat,
        reduceCtorEq, if_false, if_true, Bool.false_eq_true, ite_false, ite_true]
      refine ⟨_, rfl, rfl, rfl, rfl, rfl, rfl, rfl, rfl, rfl, rfl, ?_, ?_, ?_, ?_⟩
      · show List.filter (fun cc => cc ≠ s.nextClosureId) s.containerListeners
            = s.containerListeners
        exact hfil
      · show List.filter (fun cc => cc ≠ s.nextClosureId + 1) s.maskListeners
            = s.maskListeners
        exact hfil2
      · show c₁ ∈ List.filter (fun cc => cc ≠ s.nextClosureId) s.containerListeners
        rw [hfil]
        exact hmem
      · intro c₂ h2
        show c₂ ∈ List.filter (fun cc => cc ≠ s.nextClosureId + 1) s.maskListeners
        rw [hfil2]
        exact h2


/-- C8 counterexample: the claim says `destroy()` detaches the creation-time
handlers and nulls out all element references including the container's.
On the instance built by the real creation pipeline, `destroy()` leaves
`containerEl = some 2` (not `none`) and the creation-time container listener
(closure id 0) still attached. -/
theorem destroy_nulls_counterexample :
    ¬ (∀ s', popupDestroy c8created = some s' →
        s'.containerEl = none ∧ s'.containerListeners = []) := by
  intro h
  have hx := h ((popupDestroy c8created).getD default) (by decide)
  exact absurd hx.1 (by decide)

/-- Witness for C8 (amended) at `witState` (creation-time container listener
id 0, creation-time mask listener id 1). -/
theorem destroy_spec_witness :
    ∃ s', popupDestroy witState = some s'
      ∧ s'.targetPosition = ""
      ∧ s'.targetEl = none ∧ s'.disposable = none ∧ s'.mask = none ∧ s'.popupEl = none
      ∧ s'.containerEl = some 2 ∧ s'.innerEl = witState.innerEl
      ∧ s'.maskEl = witState.maskEl ∧ s'.closeEl = witState.closeEl
      ∧ s'.containerListeners = witState.containerListeners
      ∧ s'.maskListeners = witState.maskListeners
      ∧ 0 ∈ s'.containerListeners
      ∧ (∀ c₂, c₂ ∈ witState.maskListeners → c₂ ∈ s'.maskListeners) :=
  destroy_spec witState true 0 0 1 2 rfl rfl rfl rfl (fun _ => by decide) rfl
    (by decide) (by decide) (by decide)

/-! ### C9 — deferred size calculation vs destroy -/

/-- C9 (amended): the callback scheduled by `open()` under `delayCalculate`
invokes `_calculateSize` directly with no defensive null-check, so when the
instance has been destroyed during the delay (nulled `targetEl`) the
deferred callback throws (modelled `none`) instead of safely no-opping. -/
theorem deferred_calc_after_destroy (s : PopupState) (h : s.targetEl = none) :
    deferredSizeCalc s = none := by
  unfold deferredSizeCalc calcSizeState
  cases hi : s.innerEl <;> simp [hi, h]



/-- C9 counterexample: the claim says the deferred callback performs a
defensive null-check before operating, so a `destroy()` during the delay
cannot make it operate on destroyed elements.  On the real pipeline the
delay is pending, `destroy()` succeeds, and the deferred callback then
throws (returns `none`, a `TypeError` on the nulled `targetEl`) — there is
no guard and no safe completion. -/
theorem deferred_calc_guard_counterexample :
    c9opened.pendingSizeCalc = true
    ∧ popupDestroy c9opened = some c9destroyed
    ∧ ¬ ∃ s', deferredSizeCalc c9destroyed = some s' := by
  refine ⟨by decide, by decide, ?_⟩
  rintro ⟨s', hs⟩
  have hnone : deferredSizeCalc c9destroyed = none := by decide
  rw [hnone] at hs
  exact Option.noConfusion hs

/-- Witness for C9 (amended) at the destroyed pipeline state. -/
theorem deferred_calc_after_destroy_witness :
    c9destroyed.targetEl = none ∧ deferredSizeCalc c9destroyed = none :=
  ⟨by decide, deferred_calc_after_destroy c9destroyed (by decide)⟩

/-! ### C6 — scroll-lock save/restore invariant -/



/-- What `open()` does to a mask-bearing popup with live references: clears
`isClosed`, installs the scroll-lock closure, captures `onscroll` into
`_scrollEvent` only when that slot is still `undefined`, and leaves the
configuration and element references untouched. -/
lemma popupOpen_masked (s : PopupState) (t p i c : Nat)
    (ht : s.targetEl = some t) (hp : s.popupEl = some p)
    (hi : s.innerEl = some i) (hc : s.containerEl = some c)
    (hm : s.mask = some true) :
    ∃ s', popupOpen s = some s'
      ∧ s'.disposable = s.disposable ∧ s'.mask = some true
      ∧ s'.targetEl = some t ∧ s'.popupEl = some p
      ∧ s'.innerEl = some i ∧ s'.containerEl = some c
      ∧ s'.isClosed = some false
      ∧ s'.targetOnscroll = some (Handler.lock s.targetScrollTop)
      ∧ s'.scrollEvent
          = (if s.scrollEvent = none then some s.targetOnscroll else s.scrollEvent) := by
  by_cases hse : s.scrollEvent = none <;>
    cases hA : s.autoSize <;>
    rcases hD : s.delayCalculate with _ | dv <;>
      simp only [popupOpen, calcSizeState, ht, hp, hi, hc, hm, hse, hA, hD, if_true,
        if_false, ite_true, ite_false, Option.isSome_none, Option.isSome_some,
        Bool.false_eq_true, reduceCtorEq] <;>
      exact ⟨_, rfl, rfl, rfl, rfl, rfl, rfl, rfl, rfl, rfl, rfl⟩

/-- What the close body does to a mask-bearing popup with live references:
sets `isClosed`, writes `_scrollEvent` back into the target's `onscroll`
slot, and leaves everything else relevant untouched. -/
lemma closeCore_masked (s : PopupState) (t p : Nat)
    (ht : s.targetEl = some t) (hp : s.popupEl = some p)
    (hm : s.mask = some true) :
    ∃ s', closeCore s = some s'
      ∧ s'.isClosed = some true
      ∧ s'.targetOnscroll = s.scrollEvent.join
      ∧ s'.disposable = s.disposable ∧ s'.mask = some true
      ∧ s'.targetEl = some t ∧ s'.popupEl = some p
      ∧ s'.innerEl = s.innerEl ∧ s'.containerEl = s.containerEl
      ∧ s'.scrollEvent = s.scrollEvent := by
  simp only [closeCore, ht, hp, hm, if_true, ite_true]
  exact ⟨_, rfl, rfl, rfl, rfl, rfl, rfl, rfl, rfl, rfl, rfl⟩

/-- `close()` on a non-disposable mask-bearing popup returns the instance
and does not destroy anything. -/
lemma popupClose_nondisposable (s : PopupState) (t p : Nat)
    (ht : s.targetEl = some t) (hp : s.popupEl = some p)
    (hm : s.mask = some true) (hd : s.disposable = some false) :
    ∃ s', popupClose s = some (s', CloseRet.inst)
      ∧ s'.isClosed = some true
      ∧ s'.targetOnscroll = s.scrollEvent.join
      ∧ s'.disposable = some false ∧ s'.mask = some true
      ∧ s'.targetEl = some t ∧ s'.popupEl = some p
      ∧ s'.innerEl = s.innerEl ∧ s'.containerEl = s.containerEl
      ∧ s'.scrollEvent = s.scrollEvent := by
  obtain ⟨s1, heq, b1, b2, b3, b4, b5, b6, b7, b8, b9⟩ := closeCore_masked s t p ht hp hm
  have hd1 : s1.disposable = some false := b3.trans hd
  simp only [popupClose, heq, hd1, reduceCtorEq, ite_false, if_false]
  exact ⟨s1, rfl, b1, b2, hd1, b4, b5, b6, b7, b8, b9⟩

/-- One lifecycle operation preserves the scroll-lock invariant. -/
lemma scrollInv_step (h₀ : Option Handler) (s : PopupState) (o : LCOp)
    (hinv : ScrollInv h₀ s) : ∃ s', applyOp s o = some s' ∧ ScrollInv h₀ s' := by
  obtain ⟨⟨hd, hm, ht, hp, hi, hc⟩, hse, hcase⟩ := hinv
  obtain ⟨t, ht2⟩ := Option.isSome_iff_exists.mp ht
  obtain ⟨p, hp2⟩ := Option.isSome_iff_exists.mp hp
  obtain ⟨i, hi2⟩ := Option.isSome_iff_exists.mp hi
  obtain ⟨c, hc2⟩ := Option.isSome_iff_exists.mp hc
  cases o with
  | op =>
    obtain ⟨s', heq, a1, a2, a3, a4, a5, a6, a7, a8, a9⟩ :=
      popupOpen_masked s t p i c ht2 hp2 hi2 hc2 hm
    refine ⟨s', heq,
      ⟨⟨a1.trans hd, a2, Option.isSome_iff_exists.mpr ⟨t, a3⟩,
        Option.isSome_iff_exists.mpr ⟨p, a4⟩, Option.isSome_iff_exists.mpr ⟨i, a5⟩,
        Option.isSome_iff_exists.mpr ⟨c, a6⟩⟩,
       ?_, Or.inl ⟨a7, s.targetScrollTop, a8⟩⟩⟩
    rw [a9, hse]
    simp
  | cl =>
    obtain ⟨s', heq, b1, b2, b3, b4, b5, b6, b7, b8, b9⟩ :=
      popupClose_nondisposable s t p ht2 hp2 hm hd
    refine ⟨s', by simp [applyOp, heq],
      ⟨⟨b3, b4, Option.isSome_iff_exists.mpr ⟨t, b5⟩,
        Option.isSome_iff_exists.mpr ⟨p, b6⟩, b7 ▸ hi, b8 ▸ hc⟩,
       b9.trans hse, Or.inr ⟨b1, ?_⟩⟩⟩
    rw [b2, hse]
    rfl

/-- Any sequence of lifecycle operations preserves the invariant. -/
lemma scrollInv_steps (h₀ : Option Handler) (ops : List LCOp) :
    ∀ s, ScrollInv h₀ s → ∃ s', applyOps s ops = some s' ∧ ScrollInv h₀ s' := by
  induction ops with
  | nil => exact fun s h => ⟨s, rfl, h⟩
  | cons o rest ih =>
    intro s h
    obtain ⟨s1, heq, h1⟩ := scrollInv_step h₀ s o h
    obtain ⟨s2, heq2, h2⟩ := ih s1 h1
    exact ⟨s2, by simp [applyOps, heq, heq2], h2⟩

/-- C6: for a created mask-bearing, non-disposable instance whose target's
`onscroll` is `h₀` and whose `_scrollEvent` slot is still `undefined`, after
a first `open()` followed by any sequence of `open`/`close` operations: the
saved slot holds exactly the captured `h₀` (captured once, never overwritten
— in particular never by a lock closure, since a captured `null` has
`typeof 'object'`); while open, the target's `onscroll` slot holds a
scroll-lock closure that pins `scrollTop` to its captured value; and after
every `close()` the target's `onscroll` equals its pre-first-open value
`h₀`. -/
theorem scroll_lock_roundtrip (h₀ : Option Handler) (s : PopupState) (ops : List LCOp)
    (h1 : s.scrollEvent = none) (h2 : s.targetOnscroll = h₀)
    (h3 : s.mask = some true) (h4 : s.disposable = some false)
    (h5 : s.targetEl.isSome) (h6 : s.popupEl.isSome)
    (h7 : s.innerEl.isSome) (h8 : s.containerEl.isSome) :
    ∃ s', applyOps s (LCOp.op :: ops) = some s'
      ∧ s'.scrollEvent = some h₀
      ∧ ((s'.isClosed = some false
            ∧ ∃ tp, s'.targetOnscroll = some (Handler.lock tp)
                ∧ ∀ x, handlerRun (Handler.lock tp) x = tp)
         ∨ (s'.isClosed = some true ∧ s'.targetOnscroll = h₀)) := by
  obtain ⟨t, ht2⟩ := Option.isSome_iff_exists.mp h5
  obtain ⟨p, hp2⟩ := Option.isSome_iff_exists.mp h6
  obtain ⟨i, hi2⟩ := Option.isSome_iff_exists.mp h7
  obtain ⟨c, hc2⟩ := Option.isSome_iff_exists.mp h8
  obtain ⟨s1, heq, a1, a2, a3, a4, a5, a6, a7, a8, a9⟩ :=
    popupOpen_masked s t p i c ht2 hp2 hi2 hc2 h3
  have hse1 : s1.scrollEvent = some h₀ := by
    rw [a9, h1]
    simp [h2]
  have hinv1 : ScrollInv h₀ s1 :=
    ⟨⟨a1.trans h4, a2, Option.isSome_iff_exists.mpr ⟨t, a3⟩,
      Option.isSome_iff_exists.mpr ⟨p, a4⟩, Option.isSome_iff_exists.mpr ⟨i, a5⟩,
      Option.isSome_iff_exists.mpr ⟨c, a6⟩⟩,
     hse1, Or.inl ⟨a7, s.targetScrollTop, a8⟩⟩
  obtain ⟨s2, heq2, hinv2⟩ := scrollInv_steps h₀ ops s1 hinv1
  refine ⟨s2, by simp [applyOps, applyOp, heq, heq2], hinv2.2.1, ?_⟩
  rcases hinv2.2.2 with ⟨hcl, tp, hlk⟩ | hr
  · exact Or.inl ⟨hcl, tp, hlk, fun x => rfl⟩
  · exact Or.inr hr

/-- Witness for C6 at `witState` (pre-open handler `external 9`), with one
full open/close cycle. -/
theorem scroll_lock_roundtrip_witness :
    ∃ s', applyOps witState [LCOp.op, LCOp.cl] = some s'
      ∧ s'.scrollEvent = some (some (Handler.external 9))
      ∧ ((s'.isClosed = some false
            ∧ ∃ tp, s'.targetOnscroll = some (Handler.lock tp)
                ∧ ∀ x, handlerRun (Handler.lock tp) x = tp)
         ∨ (s'.isClosed = some true
            ∧ s'.targetOnscroll = some (Handler.external 9))) :=
  scroll_lock_roundtrip (some (Handler.external 9)) witState [LCOp.cl]
    rfl rfl rfl rfl rfl rfl rfl rfl
